import Mathlib

/-!
Verification of the pycsob signing/verification utilities (`pycsob/utils.py`)
against their specification.

The payment values, canonical message construction, payload assembly,
response validation, card-provider classification and merchant-data
encoding are translated directly from the source.  External collaborators
are modelled executably:

* the configuration module `conf` (not part of the sources) supplies
  `EMPTY_VALUES`, `RESPONSE_KEYS` and the card-provider tables; these are
  modelled from the spec (section 6, "Configuration collaborator");
* the RSA-SHA256 / PKCS#1 v1.5 primitives from PyCrypto are modelled as
  textbook modular-exponentiation RSA over an executable hash, with the
  correctness property of a matching key pair stated explicitly
  (`ValidKeyPair`);
* `base64.b64encode` / `b64decode` are implemented faithfully
  (RFC 4648 alphabet and padding) and their round-trip is proved.
-/

/-- A calendar timestamp, the result of `datetime.strptime` in `dttm_decode`. -/
structure DateTime where
  year : Nat
  month : Nat
  day : Nat
  hour : Nat
  minute : Nat
  second : Nat
deriving DecidableEq, Repr

/-- Primitive Python values appearing in payload fields: strings, integers,
booleans, `None`, and (after response validation) decoded datetimes. -/
inductive Prim where
  | str (s : String)
  | int (n : Int)
  | bool (b : Bool)
  | null
  | dt (d : DateTime)
deriving DecidableEq, Repr

/-- A payload/JSON value: a primitive, or a sequence of line-item mappings
(the shape of the `cart` field and of the `extensions` list).  The spec
(section 9) declares deeper nesting of collections unsupported input. -/
inductive Val where
  | prim (p : Prim)
  | cart (items : List (List (String × Prim)))
deriving DecidableEq, Repr

/-- An ordered field mapping (a Python `OrderedDict` as an association list;
keys are unique in the dictionaries the library builds). -/
abbrev Payload : Type := List (String × Val)

/-- Dictionary lookup `data[k]` / `k in data` (first binding of the key). -/
def lookup? {α : Type} (data : List (String × α)) (k : String) : Option α :=
  (data.find? (fun kv => kv.1 == k)).map (fun kv => kv.2)

/-- Dictionary update `data[k] = v` for a key already present: the binding is
replaced in place, keeping its position. -/
def setKey (p : Payload) (k : String) (v : Val) : Payload :=
  (p : List (String × Val)).map (fun kv => if kv.1 = k then (k, v) else kv)

/-- Dictionary `data.pop(k)`: the value and the mapping with the key removed,
or `none` (a `KeyError`) when the key is absent. -/
def popKey (data : List (String × Val)) (k : String) :
    Option (Val × List (String × Val)) :=
  (lookup? data k).map (fun v => (v, data.filter (fun kv => ¬ kv.1 = k)))

/-- Modelled from the spec: `conf.EMPTY_VALUES`, the configured set of
"empty" sentinel values (None and the empty string; section 6). -/
def EMPTY_VALUES : List Val := [Val.prim Prim.null, Val.prim (Prim.str "")]

/-- Modelled from the spec: `conf.RESPONSE_KEYS`, the ordered allow-list of
response field names.  The spec does not enumerate the list; a representative
fixed order is used, and the theorems about the restriction quantify over
arbitrary key lists wherever possible. -/
def RESPONSE_KEYS : List String :=
  ["payId", "customerId", "dttm", "resultCode", "resultMessage",
   "paymentStatus", "authCode", "merchantData"]

/-- Zero-padded decimal rendering used by Python `str(datetime)`. -/
def pad2 (n : Nat) : String := if n < 10 then "0" ++ toString n else toString n

/-- Python `str()` of a decoded datetime: `YYYY-MM-DD HH:MM:SS`. -/
def strOfDateTime (d : DateTime) : String :=
  toString d.year ++ "-" ++ pad2 d.month ++ "-" ++ pad2 d.day ++ " " ++
    pad2 d.hour ++ ":" ++ pad2 d.minute ++ ":" ++ pad2 d.second

/-- Python `repr()` of a primitive, used by `str()` on a list value. -/
def reprOfPrim : Prim → String
  | Prim.str s => "'" ++ s ++ "'"
  | Prim.int n => toString n
  | Prim.bool b => cond b "True" "False"
  | Prim.null => "None"
  | Prim.dt d => "datetime.datetime(" ++ toString d.year ++ ", " ++ toString d.month
      ++ ", " ++ toString d.day ++ ", " ++ toString d.hour ++ ", " ++ toString d.minute
      ++ ", " ++ toString d.second ++ ")"

/-- Python `str()` of a list of `OrderedDict`s (only reachable when a cart
value sits under a key other than `cart`, or is skipped as empty). -/
def strOfItems (items : List (List (String × Prim))) : String :=
  "[" ++ ", ".intercalate (items.map (fun one =>
    "OrderedDict([" ++ ", ".intercalate (one.map (fun kv =>
      "('" ++ kv.1 ++ "', " ++ reprOfPrim kv.2 ++ ")")) ++ "])")) ++ "]"

/-- `str_or_jsbool(v)`: booleans render as the lowercase JavaScript literals,
everything else via Python `str()`. -/
def str_or_jsbool : Val → String
  | Val.prim (Prim.bool b) => cond b "true" "false"
  | Val.prim (Prim.str s) => s
  | Val.prim (Prim.int n) => toString n
  | Val.prim Prim.null => "None"
  | Val.prim (Prim.dt d) => strOfDateTime d
  | Val.cart items => strOfItems items

/-- UTF-8 encoding of a single character (RFC 3629). -/
def utf8Char (c : Char) : List Nat :=
  let n := c.toNat
  if n < 128 then [n]
  else if n < 2048 then [192 + n / 64, 128 + n % 64]
  else if n < 65536 then [224 + n / 4096, 128 + n / 64 % 64, 128 + n % 64]
  else [240 + n / 262144, 128 + n / 4096 % 64, 128 + n / 64 % 64, 128 + n % 64]

/-- `s.encode('utf-8')`: the UTF-8 bytes of a string. -/
def encodeUtf8 (s : String) : List Nat := (s.data.map utf8Char).flatten

/-- The flattened cart sub-message: all values of all line items, each item's
values in the item's own insertion order, across items in cart order,
rendered by `str_or_jsbool` and pipe-joined. -/
def flattenCart (items : List (List (String × Prim))) : String :=
  "|".intercalate ((items.map (fun one =>
    one.map (fun kv => str_or_jsbool (Val.prim kv.2)))).flatten)

/-- `mk_msg_for_sign(payload)`: if a `cart` field is present (as a sequence)
and not an empty sentinel, its value is replaced by the flattened cart
string; then all values are rendered by `str_or_jsbool`, pipe-joined in
mapping order and UTF-8 encoded.  (A non-sequence, non-empty `cart` value
makes the source raise while iterating; such payloads are the unsupported
input of spec section 9 and lie outside the embedding.) -/
def mk_msg_for_sign (payload : Payload) : List Nat :=
  let payload2 : Payload :=
    match lookup? (payload : List (String × Val)) "cart" with
    | some (Val.cart items) =>
        if Val.cart items ∈ EMPTY_VALUES then payload
        else setKey payload "cart" (Val.prim (Prim.str (flattenCart items)))
    | _ => payload
  encodeUtf8 ("|".intercalate ((payload2 : List (String × Val)).map
    (fun kv => str_or_jsbool kv.2)))

/-- Modelled external collaborator: the SHA-256 digest (with PKCS#1 v1.5
encoding) of the message bytes, abstracted as an executable injective-style
accumulator over the bytes. -/
def hashBytes (msg : List Nat) : Nat :=
  msg.foldl (fun a b => a * 256 + b + 1) 0

/-- Modular exponentiation, `pow(b, e, n)`. -/
def powMod (b e n : Nat) : Nat := b ^ e % n

/-- An RSA key as PyCrypto's `importKey` yields it: a modulus and an
exponent (private `d` or public `e`). -/
structure RSAKey where
  n : Nat
  exp : Nat
deriving DecidableEq, Repr

/-- Modelled external collaborator: the raw RSA PKCS#1 v1.5 signature of a
message under a private key — the digest reduced into the modulus and
raised to the private exponent. -/
def rsaSign (msg : List Nat) (key : RSAKey) : Nat :=
  powMod (hashBytes msg % key.n) key.exp key.n

/-- Modelled external collaborator: RSA PKCS#1 v1.5 verification — the
signature raised to the public exponent must reproduce the reduced digest. -/
def rsaVerify (msg : List Nat) (sig : Nat) (key : RSAKey) : Bool :=
  powMod sig key.exp key.n == hashBytes msg % key.n

/-- A matching RSA key pair: same modulus, and the private-then-public
exponentiation is the identity below the modulus (the RSA correctness
property of `d * e ≡ 1` mod the totient). -/
def ValidKeyPair (priv pub : RSAKey) : Prop :=
  priv.n = pub.n ∧ 0 < priv.n ∧
    ∀ h < priv.n, powMod (powMod h priv.exp priv.n) pub.exp pub.n = h

instance (priv pub : RSAKey) : Decidable (ValidKeyPair priv pub) := by
  unfold ValidKeyPair
  infer_instance

/-- The RFC 4648 base64 alphabet. -/
def b64Alphabet : List Char :=
  "ABCDEFGHIJKLMNOPQRSTUVWXYZabcdefghijklmnopqrstuvwxyz0123456789+/".data

/-- The alphabet character of a 6-bit group. -/
def b64Char (i : Nat) : Char := b64Alphabet.getD i '?'

/-- The 6-bit group of an alphabet character. -/
def b64Index (c : Char) : Nat := b64Alphabet.indexOf c

/-- `base64.b64encode`: three bytes become four alphabet characters, with
`=` padding for a final group of one or two bytes. -/
def b64encodeList : List Nat → List Char
  | [] => []
  | [a] => [b64Char (a / 4), b64Char (a % 4 * 16), '=', '=']
  | [a, b] => [b64Char (a / 4), b64Char (a % 4 * 16 + b / 16),
      b64Char (b % 16 * 4), '=']
  | a :: b :: c :: rest =>
      b64Char (a / 4) :: b64Char (a % 4 * 16 + b / 16) ::
        b64Char (b % 16 * 4 + c / 64) :: b64Char (c % 64) :: b64encodeList rest

/-- `base64.b64decode`: four characters back to three bytes, honouring the
`=` padding of the final group. -/
def b64decodeList : List Char → List Nat
  | c1 :: c2 :: c3 :: c4 :: rest =>
      if c3 = '=' then [b64Index c1 * 4 + b64Index c2 / 16]
      else if c4 = '=' then
        [b64Index c1 * 4 + b64Index c2 / 16,
         b64Index c2 % 16 * 16 + b64Index c3 / 4]
      else
        (b64Index c1 * 4 + b64Index c2 / 16) ::
          (b64Index c2 % 16 * 16 + b64Index c3 / 4) ::
          (b64Index c3 % 4 * 64 + b64Index c4) :: b64decodeList rest
  | _ => []

/-- Big-endian byte serialization, with explicit fuel so that the recursion
is structural.  `fuel` bounds the value being serialized. -/
def natToBytesAux : Nat → Nat → List Nat
  | 0, _ => []
  | fuel + 1, n => if n = 0 then [] else natToBytesAux fuel (n / 256) ++ [n % 256]

/-- Big-endian byte serialization of a natural number (the raw signature
bytes produced by the signer). -/
def natToBytes (n : Nat) : List Nat := natToBytesAux n n

/-- Big-endian byte deserialization (inverse of `natToBytes`). -/
def bytesToNat (bs : List Nat) : Nat :=
  bs.foldl (fun a b => a * 256 + b) 0

/-- `sign(payload, keyfile)`: canonical message, digest, RSA signature,
base64 text. -/
def sign (payload : Payload) (keyfile : RSAKey) : String :=
  (b64encodeList (natToBytes (rsaSign (mk_msg_for_sign payload) keyfile))).asString

/-- `verify(payload, signature, pubkeyfile)`: recompute the canonical
message and check the base64-decoded signature against it. -/
def verify (payload : Payload) (signature : String) (pubkeyfile : RSAKey) : Bool :=
  rsaVerify (mk_msg_for_sign payload) (bytesToNat (b64decodeList signature.data))
    pubkeyfile

/-- `mk_payload(keyfile, pairs)`: keep the pairs whose value is not an empty
sentinel, sign that mapping, and append the signature as the final entry. -/
def mk_payload (keyfile : RSAKey) (pairs : List (String × Val)) : Payload :=
  let payload : Payload := pairs.filter (fun kv => !decide (kv.2 ∈ EMPTY_VALUES))
  payload ++ ([("signature", Val.prim (Prim.str (sign payload keyfile)))] : Payload)

deriving instance DecidableEq for Except

/-- The Python exceptions the library can raise or propagate. -/
inductive PyError where
  | httpError (code : Nat)
  | keyError (k : String)
  | typeError
  | valueError (msg : String)
  | csobVerifyError (msg : String)
deriving DecidableEq, Repr

/-- `encode_merchant_data(merchant_data)`: base64-encode, reject encodings
longer than 255 characters, pass `None` through. -/
def encode_merchant_data : Option (List Nat) → Except PyError (Option String)
  | none => Except.ok none
  | some merchant_data =>
      let s := (b64encodeList merchant_data).asString
      if s.length > 255 then
        Except.error (PyError.valueError
          "Merchant data length encoded to BASE64 is over 255 chars")
      else Except.ok (some s)

/-- The restricted ordered mapping: in the allow-list's declared order,
every allow-listed key present in the raw mapping (the `for k in keys`
loop of `validate_response`). -/
def restrict {α : Type} (keys : List String) (data : List (String × α)) :
    List (String × α) :=
  keys.filterMap (fun k => (lookup? data k).map (fun v => (k, v)))

/-- The fixed allow-list of the masked-card extension (`maskclnrp_keys`). -/
def maskclnrp_keys : List String :=
  ["extension", "dttm", "maskedCln", "expiration", "longMaskedCln"]

/-- An extension entry's primitive mapping viewed as a payload. -/
def liftPrim (one : List (String × Prim)) : Payload :=
  one.map (fun kv => (kv.1, Val.prim kv.2))

/-- The restricted ordered mapping `o` built for a masked-card extension. -/
def restrictExt (one : List (String × Prim)) : Payload :=
  restrict maskclnrp_keys (liftPrim one)

/-- Decimal reading of a digit string. -/
def digitsToNat (l : List Char) : Nat :=
  l.foldl (fun a c => a * 10 + (c.toNat - 48)) 0

/-- `dttm_decode(value)`: `datetime.strptime(value, "%Y%m%d%H%M%S")`.  The
strptime collaborator is modelled as: fourteen digits read positionally,
with calendar-range validation; anything else raises `ValueError`. -/
def dttm_decode (value : String) : Except PyError DateTime :=
  let cs := value.data
  if cs.length = 14 ∧ ∀ c ∈ cs, c.isDigit then
    let y := digitsToNat (cs.take 4)
    let mo := digitsToNat ((cs.drop 4).take 2)
    let d := digitsToNat ((cs.drop 6).take 2)
    let h := digitsToNat ((cs.drop 8).take 2)
    let mi := digitsToNat ((cs.drop 10).take 2)
    let s := digitsToNat ((cs.drop 12).take 2)
    if 1 ≤ mo ∧ mo ≤ 12 ∧ 1 ≤ d ∧ d ≤ 31 ∧ h ≤ 23 ∧ mi ≤ 59 ∧ s ≤ 59 then
      Except.ok ⟨y, mo, d, h, mi, s⟩
    else Except.error (PyError.valueError "time data does not match format")
  else Except.error (PyError.valueError "time data does not match format")

/-- The `dttm` post-processing step of `validate_response`: when a `dttm`
field is present, append the decoded `dttime` field. -/
def addDttime (payload : Payload) : Except PyError Payload :=
  match lookup? payload "dttm" with
  | none => Except.ok payload
  | some (Val.prim (Prim.str s)) =>
      (dttm_decode s).map (fun d => payload ++ [("dttime", Val.prim (Prim.dt d))])
  | some _ => Except.error PyError.typeError

/-- The transport response object: status code and JSON body, plus the
`payload` / `extensions` attributes that `validate_response` attaches
(absent, i.e. `none`, until set). -/
structure HttpResponse where
  status_code : Nat
  body : List (String × Val)
  payload : Option Payload := none
  extensions : Option (List Payload) := none
deriving DecidableEq, Repr

/-- The extension loop of `validate_response`: process the entries in
order, appending each verified masked-card mapping to the accumulator;
stop with the accumulated list and an error when an entry fails. -/
def processExts (key : RSAKey) :
    List (List (String × Prim)) → List Payload → List Payload × Option PyError
  | [], acc => (acc, none)
  | one :: rest, acc =>
    match lookup? one "extension" with
    | none => (acc, some (PyError.keyError "extension"))
    | some e =>
      if e = Prim.str "maskClnRP" then
        let o := restrictExt one
        match lookup? one "signature" with
        | none => (acc, some (PyError.keyError "signature"))
        | some (Prim.str sg) =>
            if verify o sg key then processExts key rest (acc ++ [o])
            else (acc, some (PyError.csobVerifyError
              "Cannot verify masked card extension response"))
        | some _ => (acc, some PyError.typeError)
      else processExts key rest acc

/-- `validate_response(response, key)`: fail on an HTTP error status, pop
the signature, restrict the body to the allow-list, verify, decode `dttm`,
attach `payload` and `extensions`, and verify each masked-card extension.
An exception is modelled as `Except.error` carrying the response object in
the state it has at raise time (the caller still holds the mutated
object). -/
def validate_response (response : HttpResponse) (key : RSAKey) :
    Except (HttpResponse × PyError) HttpResponse :=
  if 400 ≤ response.status_code ∧ response.status_code < 600 then
    Except.error (response, PyError.httpError response.status_code)
  else
    match popKey response.body "signature" with
    | none => Except.error (response, PyError.keyError "signature")
    | some (Val.prim (Prim.str signature), data) =>
      let payload := restrict RESPONSE_KEYS data
      if verify payload signature key then
        match addDttime payload with
        | Except.error e => Except.error (response, e)
        | Except.ok payload2 =>
          let response2 :=
            { response with extensions := some [], payload := some payload2 }
          match lookup? data "extensions" with
          | none => Except.ok response2
          | some (Val.cart exts) =>
            match processExts key exts [] with
            | (found, some e) =>
                Except.error ({ response2 with extensions := some found }, e)
            | (found, none) => Except.ok { response2 with extensions := some found }
          | some _ => Except.error (response2, PyError.typeError)
      else Except.error (response, PyError.csobVerifyError "Cannot verify response")
    | some _ => Except.error (response, PyError.typeError)

/-- An extension entry that the loop passes over without raising: either
not of the masked-card kind (but carrying an `extension` discriminator), or
of the masked-card kind and verifying against its own string signature. -/
def stepVerified (key : RSAKey) (one : List (String × Prim)) : Prop :=
  (∃ e, lookup? one "extension" = some e ∧ ¬ e = Prim.str "maskClnRP")
  ∨ (lookup? one "extension" = some (Prim.str "maskClnRP")
      ∧ ∃ sg, lookup? one "signature" = some (Prim.str sg)
          ∧ verify (restrictExt one) sg key = true)

/-- A masked-card extension entry whose own signature fails to verify. -/
def stepFails (key : RSAKey) (one : List (String × Prim)) : Prop :=
  lookup? one "extension" = some (Prim.str "maskClnRP")
  ∧ ∃ sg, lookup? one "signature" = some (Prim.str sg)
      ∧ verify (restrictExt one) sg key = false

/-- Is the entry of the masked-card kind? -/
def isMaskClnRP (one : List (String × Prim)) : Bool :=
  lookup? one "extension" == some (Prim.str "maskClnRP")

/-- The restricted mappings of the masked-card entries of a list, in
order: what the loop appends to `response.extensions`. -/
def verifiedExts (pre : List (List (String × Prim))) : List Payload :=
  (pre.filter isMaskClnRP).map restrictExt

/-- The card-provider identities of the configuration table. -/
inductive CardProvider where
  | visa
  | amex
  | diners
  | jcb
  | mc
deriving DecidableEq, Repr

/-- Modelled from the spec: `conf.CARD_PROVIDERS`, the provider-identity to
display-name table (section 6). -/
def CARD_PROVIDERS : CardProvider → String
  | CardProvider.visa => "Visa"
  | CardProvider.amex => "American Express"
  | CardProvider.diners => "Diners Club"
  | CardProvider.jcb => "JCB"
  | CardProvider.mc => "MasterCard"

/-- The Visa pattern: `^4\d{5}$` (re.match, so anchored at the start; the
`$` makes it exact). -/
def matchVisa : List Char → Bool
  | ['4', a, b, c, d, e] =>
      a.isDigit && b.isDigit && c.isDigit && d.isDigit && e.isDigit
  | _ => false

/-- The Amex pattern: `^3[47]\d{4}$`. -/
def matchAmex : List Char → Bool
  | ['3', x, a, b, c, d] =>
      (x == '4' || x == '7') && a.isDigit && b.isDigit && c.isDigit && d.isDigit
  | _ => false

/-- The Diners pattern: `^3(?:0[0-5]|[68][0-9])[0-9]{4}$` — it needs
exactly seven characters. -/
def matchDiners : List Char → Bool
  | ['3', x, y, a, b, c, d] =>
      ((x == '0' && decide ('0' ≤ y) && decide (y ≤ '5'))
        || ((x == '6' || x == '8') && y.isDigit))
        && a.isDigit && b.isDigit && c.isDigit && d.isDigit
  | _ => false

/-- The JCB pattern: `^(?:2131|1800|35[0-9]{2})[0-9]{2}$`. -/
def matchJCB : List Char → Bool
  | [a, b, c, d, e, f] =>
      ((a == '2' && b == '1' && c == '3' && d == '1')
        || (a == '1' && b == '8' && c == '0' && d == '0')
        || (a == '3' && b == '5' && c.isDigit && d.isDigit))
        && e.isDigit && f.isDigit
  | _ => false

/-- First MasterCard alternative, `5[1-5][0-9]{4}`, as a prefix match (no
end anchor in this branch of the source pattern). -/
def mcB1 : List Char → Bool
  | '5' :: x :: a :: b :: c :: d :: _ =>
      decide ('1' ≤ x) && decide (x ≤ '5')
        && a.isDigit && b.isDigit && c.isDigit && d.isDigit
  | _ => false

/-- MasterCard alternative `222[1-9][0-9]{2}` (prefix match). -/
def mcB2 : List Char → Bool
  | '2' :: '2' :: '2' :: x :: a :: b :: _ =>
      decide ('1' ≤ x) && decide (x ≤ '9') && a.isDigit && b.isDigit
  | _ => false

/-- MasterCard alternative `22[3-9][0-9]{4}` (prefix match). -/
def mcB3 : List Char → Bool
  | '2' :: '2' :: x :: a :: b :: c :: d :: _ =>
      decide ('3' ≤ x) && decide (x ≤ '9')
        && a.isDigit && b.isDigit && c.isDigit && d.isDigit
  | _ => false

/-- MasterCard alternative `2[3-6][0-9]{5}` (prefix match). -/
def mcB4 : List Char → Bool
  | '2' :: x :: a :: b :: c :: d :: e :: _ =>
      decide ('3' ≤ x) && decide (x ≤ '6')
        && a.isDigit && b.isDigit && c.isDigit && d.isDigit && e.isDigit
  | _ => false

/-- MasterCard alternative `27[01][0-9]{4}` (prefix match). -/
def mcB5 : List Char → Bool
  | '2' :: '7' :: x :: a :: b :: c :: d :: _ =>
      (x == '0' || x == '1')
        && a.isDigit && b.isDigit && c.isDigit && d.isDigit
  | _ => false

/-- MasterCard alternative `2720[0-9]{2}$` (the only end-anchored branch). -/
def mcB6 : List Char → Bool
  | ['2', '7', '2', '0', a, b] => a.isDigit && b.isDigit
  | _ => false

/-- The MasterCard pattern, an alternation whose first five branches are
prefix matches and whose last is end-anchored. -/
def matchMC (l : List Char) : Bool :=
  mcB1 l || mcB2 l || mcB3 l || mcB4 l || mcB5 l || mcB6 l

/-- The `PROVIDERS` table: identities with their patterns, in priority
order. -/
def PROVIDERS : List (CardProvider × (List Char → Bool)) :=
  [(CardProvider.visa, matchVisa), (CardProvider.amex, matchAmex),
   (CardProvider.diners, matchDiners), (CardProvider.jcb, matchJCB),
   (CardProvider.mc, matchMC)]

/-- `get_card_provider(long_masked_number)`: match the first six characters
against the table in order; first match wins, else the none/none sentinel. -/
def get_card_provider (long_masked_number : String) :
    Option CardProvider × Option String :=
  match PROVIDERS.find? (fun p => p.2 (long_masked_number.data.take 6)) with
  | some (provider_id, _) => (some provider_id, some (CARD_PROVIDERS provider_id))
  | none => (none, none)

/-- A concrete private key for witnesses: modulus 33, private exponent 7. -/
def demoPriv : RSAKey := ⟨33, 7⟩

/-- The matching public key: modulus 33, public exponent 3 (7 · 3 ≡ 1 mod
λ(33) = 10). -/
def demoPub : RSAKey := ⟨33, 3⟩

/-- A concrete response field mapping for witnesses. -/
def demoFields : Payload :=
  [("payId", Val.prim (Prim.str "12345")), ("resultCode", Val.prim (Prim.int 0))]

/-- The signature of `demoFields` under the demo private key. -/
def demoSig : String := sign demoFields demoPriv

/-- A correctly signed response body. -/
def validBody : List (String × Val) :=
  [("payId", Val.prim (Prim.str "12345")), ("resultCode", Val.prim (Prim.int 0)),
   ("signature", Val.prim (Prim.str demoSig))]

/-- The signed body with `payId` altered after signing. -/
def tamperedBody : List (String × Val) :=
  [("payId", Val.prim (Prim.str "99999")), ("resultCode", Val.prim (Prim.int 0)),
   ("signature", Val.prim (Prim.str demoSig))]

/-- A 200 response carrying the tampered body. -/
def tamperedResp : HttpResponse := { status_code := 200, body := tamperedBody }

/-- A masked-card extension entry carrying a signature that does not
verify. -/
def extBad : List (String × Prim) :=
  [("extension", Prim.str "maskClnRP"), ("maskedCln", Prim.str "****1234"),
   ("signature", Prim.str "AA==")]

/-- The fields of a correctly signed masked-card extension entry. -/
def extGoodFields : List (String × Prim) :=
  [("extension", Prim.str "maskClnRP"), ("maskedCln", Prim.str "****1111")]

/-- The signature of the good extension entry's restricted mapping. -/
def extGoodSig : String := sign (restrictExt extGoodFields) demoPriv

/-- The correctly signed masked-card extension entry. -/
def extGood : List (String × Prim) :=
  extGoodFields ++ [("signature", Prim.str extGoodSig)]

/-- A 200 response with a valid parent signature and one failing
extension. -/
def extResp : HttpResponse :=
  { status_code := 200, body := validBody ++ [("extensions", Val.cart [extBad])] }

/-- A 200 response with a valid parent signature, one verifying extension
and then one failing extension. -/
def extResp2 : HttpResponse :=
  { status_code := 200,
    body := validBody ++ [("extensions", Val.cart [extGood, extBad])] }


/-- The tampered body without its signature field: what `validate_response`
restricts and verifies for `tamperedResp`. -/
def tamperedFields : Payload :=
  [("payId", Val.prim (Prim.str "99999")), ("resultCode", Val.prim (Prim.int 0))]

/-- `extResp.body` after popping the signature. -/
def extData : List (String × Val) :=
  [("payId", Val.prim (Prim.str "12345")), ("resultCode", Val.prim (Prim.int 0)),
   ("extensions", Val.cart [extBad])]

/-- `extResp2.body` after popping the signature. -/
def extData2 : List (String × Val) :=
  [("payId", Val.prim (Prim.str "12345")), ("resultCode", Val.prim (Prim.int 0)),
   ("extensions", Val.cart [extGood, extBad])]

/-- Concrete request pairs with empty sentinel values among them. -/
def demoPairs : List (String × Val) :=
  [("a", Val.prim (Prim.str "x")), ("b", Val.prim Prim.null),
   ("c", Val.prim (Prim.str "")), ("d", Val.prim (Prim.bool true))]

/-- A raw body listing allow-listed fields in an order different from the
allow-list's. -/
def orderDemoA : List (String × Val) :=
  [("resultCode", Val.prim (Prim.int 0)), ("payId", Val.prim (Prim.str "1"))]

/-- The same bindings as `orderDemoA` in the opposite order. -/
def orderDemoB : List (String × Val) :=
  [("payId", Val.prim (Prim.str "1")), ("resultCode", Val.prim (Prim.int 0))]

theorem bytesToNat_append (l : List Nat) (b : Nat) :
    bytesToNat (l ++ [b]) = bytesToNat l * 256 + b := by
  simp [bytesToNat, List.foldl_append]

theorem natToBytesAux_lt (fuel : Nat) : ∀ n x, x ∈ natToBytesAux fuel n → x < 256 := by
  induction fuel with
  | zero => intro n x hx; simp [natToBytesAux] at hx
  | succ fuel ih =>
    intro n x hx
    simp only [natToBytesAux] at hx
    split at hx
    · simp at hx
    · rcases List.mem_append.mp hx with h | h
      · exact ih _ x h
      · simp only [List.mem_singleton] at h
        omega

theorem natToBytesAux_spec (fuel : Nat) : ∀ n, n ≤ fuel →
    bytesToNat (natToBytesAux fuel n) = n := by
  induction fuel with
  | zero =>
    intro n hn
    have : n = 0 := by omega
    simp [this, natToBytesAux, bytesToNat]
  | succ fuel ih =>
    intro n hn
    by_cases h0 : n = 0
    · simp [h0, natToBytesAux, bytesToNat]
    · have hrec : n / 256 ≤ fuel := by omega
      simp only [natToBytesAux, if_neg h0]
      rw [bytesToNat_append, ih _ hrec]
      omega

theorem bytesToNat_natToBytes (n : Nat) : bytesToNat (natToBytes n) = n :=
  natToBytesAux_spec n n le_rfl

theorem natToBytes_lt (n : Nat) : ∀ x ∈ natToBytes n, x < 256 :=
  natToBytesAux_lt n n

theorem b64Index_b64Char : ∀ i < 64, b64Index (b64Char i) = i := by decide

theorem b64Char_ne_pad : ∀ i < 64, ¬ b64Char i = '=' := by decide

theorem b64_roundtrip : ∀ l : List Nat, (∀ x ∈ l, x < 256) →
    b64decodeList (b64encodeList l) = l
  | [], _ => rfl
  | [a], h => by
    have ha : a < 256 := h a (by simp)
    simp only [b64encodeList, b64decodeList, if_pos]
    rw [b64Index_b64Char _ (by omega), b64Index_b64Char _ (by omega)]
    simp only [List.cons.injEq, and_true]
    omega
  | [a, b], h => by
    have ha : a < 256 := h a (by simp)
    have hb : b < 256 := h b (by simp)
    simp only [b64encodeList, b64decodeList,
      if_neg (b64Char_ne_pad (b % 16 * 4) (by omega)), if_pos]
    rw [b64Index_b64Char _ (by omega), b64Index_b64Char _ (by omega),
      b64Index_b64Char _ (by omega)]
    simp only [List.cons.injEq, and_true]
    omega
  | a :: b :: c :: rest, h => by
    have ha : a < 256 := h a (by simp)
    have hb : b < 256 := h b (by simp)
    have hc : c < 256 := h c (by simp)
    have hrest : ∀ x ∈ rest, x < 256 := fun x hx => h x (by simp [hx])
    simp only [b64encodeList, b64decodeList,
      if_neg (b64Char_ne_pad (b % 16 * 4 + c / 64) (by omega)),
      if_neg (b64Char_ne_pad (c % 64) (by omega))]
    rw [b64Index_b64Char _ (by omega), b64Index_b64Char _ (by omega),
      b64Index_b64Char _ (by omega), b64Index_b64Char _ (by omega)]
    rw [b64_roundtrip rest hrest]
    simp only [List.cons.injEq, and_true]
    refine ⟨by omega, by omega, by omega⟩

theorem data_asString (l : List Char) : (List.asString l).data = l := rfl

theorem verify_sign (payload : Payload) (priv pub : RSAKey)
    (hkey : ValidKeyPair priv pub) :
    verify payload (sign payload priv) pub = true := by
  obtain ⟨hn, hpos, hrt⟩ := hkey
  unfold verify sign
  rw [data_asString, b64_roundtrip _ (natToBytes_lt _), bytesToNat_natToBytes]
  unfold rsaVerify rsaSign
  have hlt : hashBytes (mk_msg_for_sign payload) % priv.n < priv.n :=
    Nat.mod_lt _ hpos
  rw [hrt _ hlt, hn, beq_self_eq_true]

/-- C1: for every ordered field mapping whose values contain no empty
sentinel values and every matching RSA key pair, signing a payload and
verifying it over the same mapping with the corresponding public key
round-trips to `true`. -/
theorem sign_verify_roundtrip (payload : Payload) (priv pub : RSAKey)
    (hkey : ValidKeyPair priv pub)
    (hne : ∀ kv ∈ payload, kv.2 ∉ EMPTY_VALUES) :
    verify payload (sign payload priv) pub = true :=
  verify_sign payload priv pub hkey

/-- Witness for C1: a concrete non-empty payload and the concrete matching
key pair 33/7/3 satisfy the hypotheses, and the round-trip holds there. -/
theorem sign_verify_roundtrip_witness :
    ValidKeyPair demoPriv demoPub
    ∧ (∀ kv ∈ demoFields, kv.2 ∉ EMPTY_VALUES)
    ∧ verify demoFields (sign demoFields demoPriv) demoPub = true :=
  ⟨by decide, by decide,
    sign_verify_roundtrip demoFields demoPriv demoPub (by decide) (by decide)⟩

theorem b64encode_length : ∀ l : List Nat,
    (b64encodeList l).length = 4 * ((l.length + 2) / 3)
  | [] => by simp [b64encodeList]
  | [a] => by simp [b64encodeList]
  | [a, b] => by simp [b64encodeList]
  | a :: b :: c :: rest => by
    have ih := b64encode_length rest
    simp only [b64encodeList, List.length_cons, ih]
    omega

theorem length_asString (l : List Char) : (List.asString l).length = l.length := rfl

/-- C2 counterexample: 190 raw bytes base64-encode to 4 · ⌈190/3⌉ = 256
characters, which exceeds 255, so `encode_merchant_data` raises the
size-violation `ValueError` instead of succeeding. -/
theorem encode_merchant_data_190_raises :
    encode_merchant_data (some (List.replicate 190 0)) =
      Except.error (PyError.valueError
        "Merchant data length encoded to BASE64 is over 255 chars") := by
  have h : ((b64encodeList (List.replicate 190 0)).asString).length =
      4 * (((List.replicate (α := Nat) 190 0).length + 2) / 3) := by
    rw [length_asString, b64encode_length]
  simp only [List.length_replicate] at h
  simp only [encode_merchant_data]
  rw [if_pos (by omega)]

/-- C2 (amended): `encode_merchant_data` succeeds on at most 189 raw bytes
(base64 text of at most 255, in fact 252, characters); it raises the
size-violation `ValueError` whenever the base64 encoding exceeds 255
characters, rather than truncating; an absent (`None`) input passes
through unchanged.  (190 raw bytes already encode to 256 characters and
raise.) -/
theorem encode_merchant_data_spec :
    (∀ bs : List Nat, bs.length ≤ 189 →
      ∃ s, encode_merchant_data (some bs) = Except.ok (some s) ∧ s.length ≤ 255)
    ∧ (∀ bs : List Nat, 255 < (b64encodeList bs).length →
        encode_merchant_data (some bs) = Except.error (PyError.valueError
          "Merchant data length encoded to BASE64 is over 255 chars"))
    ∧ encode_merchant_data none = Except.ok none := by
  refine ⟨?_, ?_, rfl⟩
  · intro bs hbs
    have h : ((b64encodeList bs).asString).length = 4 * ((bs.length + 2) / 3) := by
      rw [length_asString, b64encode_length]
    refine ⟨(b64encodeList bs).asString, ?_, by omega⟩
    simp only [encode_merchant_data]
    rw [if_neg (by omega)]
  · intro bs hbs
    have h : ((b64encodeList bs).asString).length = (b64encodeList bs).length :=
      length_asString _
    simp only [encode_merchant_data]
    rw [if_pos (by omega)]

/-- Witness for C2 (amended): 189 bytes succeed within the limit, an
oversized encoding raises, at concrete inputs. -/
theorem encode_merchant_data_spec_witness :
    (∃ s, encode_merchant_data (some (List.replicate 189 0)) = Except.ok (some s)
      ∧ s.length ≤ 255)
    ∧ encode_merchant_data (some (List.replicate 190 1)) =
        Except.error (PyError.valueError
          "Merchant data length encoded to BASE64 is over 255 chars") := by
  constructor
  · exact encode_merchant_data_spec.1 (List.replicate 189 0)
      (by rw [List.length_replicate])
  · exact encode_merchant_data_spec.2.1 (List.replicate 190 1)
      (by rw [b64encode_length, List.length_replicate]; norm_num)

/-- C3: the payload whose only field is the two-item cart
`[{a:1, b:2}, {a:3, b:4}]` yields the canonical message that is the UTF-8
bytes of `1|2|3|4`: each item's values in insertion order, across items in
cart order, pipe-joined and substituted at the cart position. -/
theorem cart_flatten_msg :
    mk_msg_for_sign [("cart", Val.cart [[("a", Prim.int 1), ("b", Prim.int 2)],
      [("a", Prim.int 3), ("b", Prim.int 4)]])] = encodeUtf8 "1|2|3|4" := by
  decide

/-- C4: booleans render as the lowercase literals `true` / `false`; strings,
integers and `None` render via their default string forms; and (when no cart
field demands substitution) the canonical message is exactly the rendered
values pipe-joined in mapping insertion order. -/
theorem bool_rendering_spec :
    str_or_jsbool (Val.prim (Prim.bool true)) = "true"
    ∧ str_or_jsbool (Val.prim (Prim.bool false)) = "false"
    ∧ (∀ s, str_or_jsbool (Val.prim (Prim.str s)) = s)
    ∧ (∀ n : Int, str_or_jsbool (Val.prim (Prim.int n)) = toString n)
    ∧ str_or_jsbool (Val.prim Prim.null) = "None"
    ∧ (∀ payload : Payload, lookup? payload "cart" = none →
        mk_msg_for_sign payload =
          encodeUtf8 ("|".intercalate (payload.map (fun kv => str_or_jsbool kv.2)))) := by
  refine ⟨rfl, rfl, fun s => rfl, fun n => rfl, rfl, ?_⟩
  intro payload hp
  unfold mk_msg_for_sign
  rw [hp]

/-- Witness for C4: a concrete cart-free payload of two booleans renders as
`true|false`. -/
theorem bool_rendering_spec_witness :
    lookup? ([("x", Val.prim (Prim.bool true)), ("y", Val.prim (Prim.bool false))] :
      Payload) "cart" = none
    ∧ mk_msg_for_sign [("x", Val.prim (Prim.bool true)),
        ("y", Val.prim (Prim.bool false))] =
      encodeUtf8 ("|".intercalate
        (([("x", Val.prim (Prim.bool true)), ("y", Val.prim (Prim.bool false))] :
          Payload).map (fun kv => str_or_jsbool kv.2))) :=
  ⟨by decide, bool_rendering_spec.2.2.2.2.2 _ (by decide)⟩

theorem restrict_map_fst {α : Type} (keys : List String) (data : List (String × α)) :
    (restrict keys data).map Prod.fst =
      keys.filter (fun k => (lookup? data k).isSome) := by
  induction keys with
  | nil => rfl
  | cons k ks ih =>
    simp only [restrict, List.filterMap_cons, List.filter_cons] at *
    cases h : lookup? data k with
    | none => simpa [h] using ih
    | some v => simpa [h] using ih

theorem restrict_mem_lookup {α : Type} (keys : List String)
    (data : List (String × α)) (k : String) (v : α)
    (hmem : (k, v) ∈ restrict keys data) : lookup? data k = some v := by
  simp only [restrict, List.mem_filterMap] at hmem
  obtain ⟨k2, _, heq⟩ := hmem
  cases h : lookup? data k2 with
  | none => rw [h] at heq; simp at heq
  | some w =>
    rw [h] at heq
    simp only [Option.map_some', Option.some.injEq, Prod.mk.injEq] at heq
    obtain ⟨h1, h2⟩ := heq
    rw [← h1, h, h2]

theorem restrict_lookup_congr {α : Type} (keys : List String)
    (data data2 : List (String × α))
    (hsame : ∀ k, lookup? data k = lookup? data2 k) :
    restrict keys data = restrict keys data2 := by
  induction keys with
  | nil => rfl
  | cons k ks ih =>
    simp only [restrict, List.filterMap_cons] at *
    rw [hsame k, ih]

/-- C5: the restricted mapping that `validate_response` verifies lists, in
the allow-list's declared order, exactly the allow-listed keys present in
the raw body, with their raw-body values; absent keys are skipped; and the
result is independent of the raw body's own field order. -/
theorem restrict_allowlist_spec :
    (∀ (keys : List String) (data : List (String × Val)),
      (restrict keys data).map Prod.fst =
        keys.filter (fun k => (lookup? data k).isSome))
    ∧ (∀ (keys : List String) (data : List (String × Val)) (k : String) (v : Val),
      (k, v) ∈ restrict keys data → lookup? data k = some v)
    ∧ (∀ (keys : List String) (data data2 : List (String × Val)),
      (∀ k, lookup? data k = lookup? data2 k) →
        restrict keys data = restrict keys data2)
    ∧ (∀ data : List (String × Val),
      (restrict RESPONSE_KEYS data).map Prod.fst =
        RESPONSE_KEYS.filter (fun k => (lookup? data k).isSome)) :=
  ⟨fun keys data => restrict_map_fst keys data,
   fun keys data k v h => restrict_mem_lookup keys data k v h,
   fun keys data data2 h => restrict_lookup_congr keys data data2 h,
   fun data => restrict_map_fst RESPONSE_KEYS data⟩

/-- Witness for C5: on a concrete body listing `resultCode` before `payId`,
the restriction follows the allow-list's order, membership determines the
body's value, and reordering the body does not change the restriction. -/
theorem restrict_allowlist_spec_witness :
    lookup? orderDemoA "payId" = some (Val.prim (Prim.str "1"))
    ∧ restrict RESPONSE_KEYS orderDemoA = restrict RESPONSE_KEYS orderDemoB := by
  constructor
  · exact restrict_allowlist_spec.2.1 RESPONSE_KEYS orderDemoA "payId"
      (Val.prim (Prim.str "1")) (by decide)
  · refine restrict_allowlist_spec.2.2.1 RESPONSE_KEYS orderDemoA orderDemoB ?_
    intro k
    by_cases h1 : k = "payId"
    · subst h1; decide
    · by_cases h2 : k = "resultCode"
      · subst h2; decide
      · simp [orderDemoA, orderDemoB, lookup?, List.find?,
          beq_eq_false_iff_ne.mpr (Ne.symm h1), beq_eq_false_iff_ne.mpr (Ne.symm h2)]

/-- C6: whenever the popped signature does not verify against the
restricted mapping, `validate_response` raises `CsobVerifyError` (the body
is never returned as valid); in particular, on the concrete body whose
`payId` was altered after signing, `verify` returns `false` and the call
raises. -/
theorem verify_failure_raises :
    (∀ (resp : HttpResponse) (key : RSAKey) (sig : String)
        (data : List (String × Val)),
      resp.status_code < 400 →
      popKey resp.body "signature" = some (Val.prim (Prim.str sig), data) →
      verify (restrict RESPONSE_KEYS data) sig key = false →
      validate_response resp key =
        Except.error (resp, PyError.csobVerifyError "Cannot verify response"))
    ∧ verify tamperedFields demoSig demoPub = false
    ∧ validate_response tamperedResp demoPub =
        Except.error (tamperedResp, PyError.csobVerifyError "Cannot verify response") := by
  refine ⟨?_, by decide, by decide⟩
  intro resp key sig data h400 hpop hver
  unfold validate_response
  rw [if_neg (by omega)]
  simp only [hpop, hver, Bool.false_eq_true, if_false]

/-- Witness for C6: the general part applied to the concrete tampered
response, discharging every hypothesis there. -/
theorem verify_failure_raises_witness :
    tamperedResp.status_code < 400
    ∧ validate_response tamperedResp demoPub =
        Except.error (tamperedResp, PyError.csobVerifyError "Cannot verify response") :=
  ⟨by decide, verify_failure_raises.1 tamperedResp demoPub demoSig tamperedFields
    (by decide) (by decide) (by decide)⟩



theorem verifiedExts_cons_mask (one : List (String × Prim))
    (pre : List (List (String × Prim))) (h : isMaskClnRP one = true) :
    verifiedExts (one :: pre) = restrictExt one :: verifiedExts pre := by
  unfold verifiedExts
  rw [List.filter_cons, if_pos h]
  rfl

theorem verifiedExts_cons_skip (one : List (String × Prim))
    (pre : List (List (String × Prim))) (h : isMaskClnRP one = false) :
    verifiedExts (one :: pre) = verifiedExts pre := by
  unfold verifiedExts
  rw [List.filter_cons, h]
  simp

theorem processExts_cons_skip (key : RSAKey) (one : List (String × Prim))
    (rest : List (List (String × Prim))) (acc : List Payload) (e : Prim)
    (hext : lookup? one "extension" = some e) (he : ¬ e = Prim.str "maskClnRP") :
    processExts key (one :: rest) acc = processExts key rest acc := by
  conv_lhs => unfold processExts
  rw [hext]
  simp only [if_neg he]

theorem processExts_cons_ver (key : RSAKey) (one : List (String × Prim))
    (rest : List (List (String × Prim))) (acc : List Payload) (sg : String)
    (hext : lookup? one "extension" = some (Prim.str "maskClnRP"))
    (hsig : lookup? one "signature" = some (Prim.str sg))
    (hver : verify (restrictExt one) sg key = true) :
    processExts key (one :: rest) acc =
      processExts key rest (acc ++ [restrictExt one]) := by
  conv_lhs => unfold processExts
  rw [hext]
  simp only [if_pos rfl, hsig, hver, if_true]

theorem processExts_cons_fail (key : RSAKey) (one : List (String × Prim))
    (rest : List (List (String × Prim))) (acc : List Payload) (sg : String)
    (hext : lookup? one "extension" = some (Prim.str "maskClnRP"))
    (hsig : lookup? one "signature" = some (Prim.str sg))
    (hver : verify (restrictExt one) sg key = false) :
    processExts key (one :: rest) acc =
      (acc, some (PyError.csobVerifyError
        "Cannot verify masked card extension response")) := by
  conv_lhs => unfold processExts
  rw [hext]
  simp only [if_pos rfl, hsig, hver, Bool.false_eq_true, if_false]
  simp

theorem processExts_ok (key : RSAKey) (pre : List (List (String × Prim))) :
    ∀ (rest : List (List (String × Prim))) (acc : List Payload),
    (∀ one ∈ pre, stepVerified key one) →
    processExts key (pre ++ rest) acc =
      processExts key rest (acc ++ verifiedExts pre) := by
  induction pre with
  | nil => intro rest acc _; simp [verifiedExts]
  | cons one pre ih =>
    intro rest acc hall
    have htl : ∀ o ∈ pre, stepVerified key o :=
      fun o ho => hall o (List.mem_cons_of_mem one ho)
    rcases hall one (List.mem_cons_self one pre) with ⟨e, hext, he⟩ | ⟨hext, sg, hsig, hver⟩
    · have hmask : isMaskClnRP one = false := by simp [isMaskClnRP, hext, he]
      rw [List.cons_append, processExts_cons_skip key one (pre ++ rest) acc e hext he,
        ih rest acc htl, verifiedExts_cons_skip one pre hmask]
    · have hmask : isMaskClnRP one = true := by simp [isMaskClnRP, hext]
      rw [List.cons_append,
        processExts_cons_ver key one (pre ++ rest) acc sg hext hsig hver,
        ih rest (acc ++ [restrictExt one]) htl, verifiedExts_cons_mask one pre hmask]
      simp [List.append_assoc]

theorem processExts_fail (key : RSAKey) (bad : List (String × Prim))
    (post : List (List (String × Prim))) (acc : List Payload)
    (hb : stepFails key bad) :
    processExts key (bad :: post) acc =
      (acc, some (PyError.csobVerifyError
        "Cannot verify masked card extension response")) := by
  obtain ⟨hext, sg, hsig, hver⟩ := hb
  exact processExts_cons_fail key bad post acc sg hext hsig hver

theorem validate_response_ext_fail (resp : HttpResponse) (key : RSAKey)
    (sig : String) (data : List (String × Val)) (payload2 : Payload)
    (exts pre post : List (List (String × Prim))) (bad : List (String × Prim))
    (h400 : resp.status_code < 400)
    (hpop : popKey resp.body "signature" = some (Val.prim (Prim.str sig), data))
    (hver : verify (restrict RESPONSE_KEYS data) sig key = true)
    (hdt : addDttime (restrict RESPONSE_KEYS data) = Except.ok payload2)
    (hexts : lookup? data "extensions" = some (Val.cart exts))
    (hsplit : exts = pre ++ bad :: post)
    (hpre : ∀ one ∈ pre, stepVerified key one)
    (hbad : stepFails key bad) :
    validate_response resp key =
      Except.error
        ({ resp with payload := some payload2, extensions := some (verifiedExts pre) },
        PyError.csobVerifyError "Cannot verify masked card extension response") := by
  subst hsplit
  unfold validate_response
  rw [if_neg (by omega)]
  simp only [hpop, hver, eq_self_iff_true, if_true, hdt, hexts]
  rw [processExts_ok key pre (bad :: post) [] hpre,
    processExts_fail key bad post _ hbad]
  simp

/-- C7: for a response whose parent signature verifies but whose extension
list contains a masked-card entry whose own signature fails to verify over
the extension allow-list fields, `validate_response` raises a verification
error whose message differs from the parent-payload failure message, while
the parent's validated payload remains computable (it is carried by the
raised response object). -/
theorem extension_failure_independent (resp : HttpResponse) (key : RSAKey)
    (sig : String) (data : List (String × Val)) (payload2 : Payload)
    (exts pre post : List (List (String × Prim))) (bad : List (String × Prim))
    (h400 : resp.status_code < 400)
    (hpop : popKey resp.body "signature" = some (Val.prim (Prim.str sig), data))
    (hver : verify (restrict RESPONSE_KEYS data) sig key = true)
    (hdt : addDttime (restrict RESPONSE_KEYS data) = Except.ok payload2)
    (hexts : lookup? data "extensions" = some (Val.cart exts))
    (hsplit : exts = pre ++ bad :: post)
    (hpre : ∀ one ∈ pre, stepVerified key one)
    (hbad : stepFails key bad) :
    ∃ resp2, validate_response resp key =
        Except.error (resp2,
          PyError.csobVerifyError "Cannot verify masked card extension response")
      ∧ ¬ "Cannot verify masked card extension response" = "Cannot verify response"
      ∧ resp2.payload = some payload2 :=
  ⟨{ resp with payload := some payload2, extensions := some (verifiedExts pre) },
    validate_response_ext_fail resp key sig data payload2 exts pre post bad
      h400 hpop hver hdt hexts hsplit hpre hbad,
    by decide, rfl⟩

/-- Witness for C7: the concrete response `extResp` has a valid parent
signature and one failing masked-card extension; every hypothesis is
discharged concretely. -/
theorem extension_failure_independent_witness :
    ∃ resp2, validate_response extResp demoPub =
        Except.error (resp2,
          PyError.csobVerifyError "Cannot verify masked card extension response")
      ∧ ¬ "Cannot verify masked card extension response" = "Cannot verify response"
      ∧ resp2.payload = some demoFields :=
  extension_failure_independent extResp demoPub demoSig extData demoFields
    [extBad] [] [] extBad (by decide) (by decide) (by decide) (by decide)
    (by decide) rfl (by intro one h; exact absurd h (List.not_mem_nil one))
    ⟨by decide, "AA==", by decide, by decide⟩

/-- C10: when `validate_response` raises for a failed masked-card
extension, the response object has already been mutated: its `payload`
attribute holds the verified parent mapping and its `extensions` attribute
holds exactly the extensions verified before the failing one. -/
theorem extension_failure_mutates_response (resp : HttpResponse) (key : RSAKey)
    (sig : String) (data : List (String × Val)) (payload2 : Payload)
    (exts pre post : List (List (String × Prim))) (bad : List (String × Prim))
    (h400 : resp.status_code < 400)
    (hpop : popKey resp.body "signature" = some (Val.prim (Prim.str sig), data))
    (hver : verify (restrict RESPONSE_KEYS data) sig key = true)
    (hdt : addDttime (restrict RESPONSE_KEYS data) = Except.ok payload2)
    (hexts : lookup? data "extensions" = some (Val.cart exts))
    (hsplit : exts = pre ++ bad :: post)
    (hpre : ∀ one ∈ pre, stepVerified key one)
    (hbad : stepFails key bad) :
    validate_response resp key =
      Except.error
        ({ resp with payload := some payload2, extensions := some (verifiedExts pre) },
        PyError.csobVerifyError "Cannot verify masked card extension response") :=
  validate_response_ext_fail resp key sig data payload2 exts pre post bad
    h400 hpop hver hdt hexts hsplit hpre hbad

/-- Witness for C10: on the concrete response `extResp2`, whose extension
list verifies one entry and then fails, the call raises with `payload`
already set and `extensions` holding the one verified extension. -/
theorem extension_failure_mutates_response_witness :
    validate_response extResp2 demoPub =
      Except.error
        ({ extResp2 with payload := some demoFields, extensions := some (verifiedExts [extGood]) },
        PyError.csobVerifyError "Cannot verify masked card extension response") :=
  extension_failure_mutates_response extResp2 demoPub demoSig extData2 demoFields
    [extGood, extBad] [extGood] [] extBad (by decide) (by decide) (by decide)
    (by decide) (by decide) rfl
    (by
      intro one h
      simp only [List.mem_singleton] at h
      subst h
      exact Or.inr ⟨by decide, extGoodSig, by decide, by decide⟩)
    ⟨by decide, "AA==", by decide, by decide⟩

/-- C8: `mk_payload` keeps exactly the pairs whose value is not an empty
sentinel (in order), signs exactly that mapping — the appended signature
field is not part of the signed message, so the mapping without its final
entry verifies against it — and appends the `signature` field as the final
entry. -/
theorem mk_payload_spec (priv pub : RSAKey) (pairs : List (String × Val))
    (hkey : ValidKeyPair priv pub) :
    (mk_payload priv pairs).dropLast =
      pairs.filter (fun kv => !decide (kv.2 ∈ EMPTY_VALUES))
    ∧ (∀ kv ∈ (mk_payload priv pairs).dropLast, kv.2 ∉ EMPTY_VALUES)
    ∧ ∃ sigStr,
        (mk_payload priv pairs).getLast? = some ("signature", Val.prim (Prim.str sigStr))
        ∧ verify ((mk_payload priv pairs).dropLast) sigStr pub = true := by
  have hdrop : (mk_payload priv pairs).dropLast =
      pairs.filter (fun kv => !decide (kv.2 ∈ EMPTY_VALUES)) := by
    simp [mk_payload, List.dropLast_concat]
  refine ⟨hdrop, ?_,
    sign (pairs.filter (fun kv => !decide (kv.2 ∈ EMPTY_VALUES))) priv, ?_, ?_⟩
  · intro kv hkv
    rw [hdrop] at hkv
    have := List.mem_filter.mp hkv
    simpa using this.2
  · simp [mk_payload, List.getLast?_concat]
  · rw [hdrop]
    exact verify_sign _ priv pub hkey

/-- Witness for C8: concrete pairs containing empty sentinel values with
the concrete key pair. -/
theorem mk_payload_spec_witness :
    ValidKeyPair demoPriv demoPub
    ∧ (mk_payload demoPriv demoPairs).dropLast =
        demoPairs.filter (fun kv => !decide (kv.2 ∈ EMPTY_VALUES))
    ∧ ∃ sigStr, (mk_payload demoPriv demoPairs).getLast? =
          some ("signature", Val.prim (Prim.str sigStr))
        ∧ verify ((mk_payload demoPriv demoPairs).dropLast) sigStr demoPub = true := by
  have h := mk_payload_spec demoPriv demoPub demoPairs (by decide)
  exact ⟨by decide, h.1, h.2.2⟩

theorem matchDiners_length (l : List Char) (h : matchDiners l = true) :
    l.length = 7 := by
  rw [matchDiners.eq_def] at h
  split at h
  · simp
  · exact absurd h (by simp)

/-- C9: the Diners pattern only matches strings of exactly seven
characters, but `get_card_provider` matches it against at most six, so the
Diners provider is never returned for any input string. -/
theorem diners_unreachable :
    (∀ l : List Char, matchDiners l = true → l.length = 7)
    ∧ ∀ s : String, (get_card_provider s).1 ≠ some CardProvider.diners := by
  refine ⟨matchDiners_length, ?_⟩
  intro s hcontra
  unfold get_card_provider at hcontra
  cases hfind : PROVIDERS.find? (fun p => p.2 (s.data.take 6)) with
  | none => rw [hfind] at hcontra; exact absurd hcontra (by simp)
  | some pr =>
    rw [hfind] at hcontra
    obtain ⟨pid, m⟩ := pr
    simp only [Option.some.injEq] at hcontra
    have hp : m (s.data.take 6) = true := by
      have := List.find?_some hfind
      simpa using this
    have hmem := List.mem_of_find?_eq_some hfind
    rw [hcontra] at hmem
    simp only [PROVIDERS, List.mem_cons, List.mem_singleton, Prod.mk.injEq] at hmem
    have hm : m = matchDiners := by
      rcases hmem with ⟨h1, _⟩ | ⟨h1, _⟩ | ⟨_, h2⟩ | ⟨h1, _⟩ | ⟨h1, _⟩ | h6
      · exact absurd h1 (by simp)
      · exact absurd h1 (by simp)
      · exact h2
      · exact absurd h1 (by simp)
      · exact absurd h1 (by simp)
      · exact absurd h6 (List.not_mem_nil _)
    rw [hm] at hp
    have hlen := matchDiners_length _ hp
    have : (s.data.take 6).length ≤ 6 := by
      rw [List.length_take]
      omega
    omega

/-- Witness for C9: the seven-character Diners BIN `3001234` matches the
Diners pattern (so its length is seven), while classifying the
six-character prefix `300123` does not yield Diners. -/
theorem diners_unreachable_witness :
    ("3001234".data).length = 7
    ∧ (get_card_provider "300123").1 ≠ some CardProvider.diners :=
  ⟨diners_unreachable.1 "3001234".data (by decide),
   diners_unreachable.2 "300123"⟩
